import Mathlib

/-!
Verification of the FinaGen three-statement forecasting core.

Shallow embedding of the computational parts of profit_loss.py,
balance_sheet.py, cash_flow.py and the orchestrating session logic of
main.py, over exact rational arithmetic.  Period 0 is the historical
anchor year 2023A; periods 1..3 are the forecast years 2024E..2026E.
-/

/-! ## Profit and loss forecaster (profit_loss.py) -/

/-- Slider assumptions collected by create_profit_loss_section
(profit_loss.py lines 35-108).  Index k holds the value for forecast
period k+1, matching the Python lists that are zipped against
revenues[1:]. -/
structure PLAssumptions where
  revenue_growth_rates : Nat → ℚ
  cost_ratios : Nat → ℚ
  sales_expense_ratios : Nat → ℚ
  management_expense_ratios : Nat → ℚ
  financial_expense_ratios : Nat → ℚ

/-- Historical P&L revenue (profit_loss.py line 14). -/
def hist_Revenue : ℚ := 1000

/-- Historical P&L cost (profit_loss.py line 15). -/
def hist_Cost : ℚ := 600

/-- Historical P&L gross profit (profit_loss.py line 16). -/
def hist_GrossProfit : ℚ := 400

/-- Historical P&L selling expense (profit_loss.py line 17). -/
def hist_SellingExpense : ℚ := 100

/-- Historical P&L admin expense (profit_loss.py line 18). -/
def hist_AdminExpense : ℚ := 80

/-- Historical P&L financial expense (profit_loss.py line 19). -/
def hist_FinancialExpense : ℚ := 20

/-- Historical P&L net profit (profit_loss.py line 20). -/
def hist_NetProfit : ℚ := 200

/-- Revenue sequence (profit_loss.py lines 117-121): the historical value
followed by compound growth. -/
def revenues (a : PLAssumptions) : Nat → ℚ
  | 0 => hist_Revenue
  | i + 1 => revenues a i * (1 + a.revenue_growth_rates i)

/-- Cost sequence (profit_loss.py line 124). -/
def costs (a : PLAssumptions) : Nat → ℚ
  | 0 => hist_Cost
  | i + 1 => revenues a (i + 1) * a.cost_ratios i

/-- Gross profit sequence (profit_loss.py line 125); computed for every
period, including period 0, as revenue minus cost. -/
def gross_profits (a : PLAssumptions) (i : Nat) : ℚ :=
  revenues a i - costs a i

/-- Selling expense sequence (profit_loss.py lines 127-128). -/
def sales_expenses (a : PLAssumptions) : Nat → ℚ
  | 0 => hist_SellingExpense
  | i + 1 => revenues a (i + 1) * a.sales_expense_ratios i

/-- Admin expense sequence (profit_loss.py lines 129-130). -/
def management_expenses (a : PLAssumptions) : Nat → ℚ
  | 0 => hist_AdminExpense
  | i + 1 => revenues a (i + 1) * a.management_expense_ratios i

/-- Financial expense sequence (profit_loss.py lines 131-132). -/
def financial_expenses (a : PLAssumptions) : Nat → ℚ
  | 0 => hist_FinancialExpense
  | i + 1 => revenues a (i + 1) * a.financial_expense_ratios i

/-- Net profit sequence (profit_loss.py lines 134-139); computed for every
period, including period 0, from the five component lines. -/
def operating_profits (a : PLAssumptions) (i : Nat) : ℚ :=
  revenues a i - costs a i - sales_expenses a i
    - management_expenses a i - financial_expenses a i

/-- The rows of the P&L forecast table that downstream statements read by
name: Revenue(A), Cost(B) and Net Profit(A-B-C-D-E). -/
structure PLTable where
  revenue : Nat → ℚ
  cost : Nat → ℚ
  net_profit : Nat → ℚ

/-- The P&L forecast table produced by create_profit_loss_section
(profit_loss.py lines 142-152), restricted to the rows consumed
downstream. -/
def plTableOf (a : PLAssumptions) : PLTable :=
  ⟨revenues a, costs a, operating_profits a⟩

/-- The default slider values of profit_loss.py: growth 15 percent, cost
ratio 60 percent, selling 10, admin 7, financial 2 percent, uniformly
across the three forecast years. -/
def defaultPLA : PLAssumptions :=
  ⟨fun _ => 15/100, fun _ => 60/100, fun _ => 10/100,
   fun _ => 7/100, fun _ => 2/100⟩

/-! ## Balance sheet forecaster (balance_sheet.py) -/

/-- Slider and number-input assumptions collected by
create_balance_sheet_section (balance_sheet.py lines 44-61). -/
structure BSAssumptions where
  receivables_ratio : ℚ
  prepayment_ratio : ℚ
  payables_ratio : ℚ
  advance_ratio : ℚ
  fixed_asset_growth : ℚ
  capital_increase : ℚ

/-- Historical balance sheet cash (balance_sheet.py line 17). -/
def histBS_Cash : ℚ := 1260

/-- Historical accounts receivable (balance_sheet.py line 18). -/
def histBS_AR : ℚ := 110

/-- Historical prepayments (balance_sheet.py line 19). -/
def histBS_Prepayments : ℚ := 6

/-- Historical fixed assets (balance_sheet.py line 20). -/
def histBS_FixedAssets : ℚ := 16

/-- Historical total assets (balance_sheet.py line 21). -/
def histBS_TotalAssets : ℚ := 1392

/-- Historical accounts payable (balance_sheet.py line 22). -/
def histBS_AP : ℚ := 120

/-- Historical advances from customers (balance_sheet.py line 23). -/
def histBS_Advances : ℚ := 10

/-- Historical total liabilities (balance_sheet.py line 24). -/
def histBS_TotalLiabilities : ℚ := 130

/-- Historical share capital 1333.52 (balance_sheet.py line 25). -/
def histBS_ShareCapital : ℚ := 133352 / 100

/-- Historical retained earnings -71.52 (balance_sheet.py line 26). -/
def histBS_RetainedEarnings : ℚ := -7152 / 100

/-- Historical total equity (balance_sheet.py line 27). -/
def histBS_TotalEquity : ℚ := 1262

/-- Historical total liabilities and equity (balance_sheet.py line 28). -/
def histBS_TotalLiabEquity : ℚ := 1392

/-- Accounts receivable row (balance_sheet.py line 76). -/
def bs_receivables (p : PLTable) (b : BSAssumptions) : Nat → ℚ
  | 0 => histBS_AR
  | i + 1 => p.revenue (i + 1) * b.receivables_ratio

/-- Prepayments row (balance_sheet.py line 77). -/
def bs_prepayments (p : PLTable) (b : BSAssumptions) : Nat → ℚ
  | 0 => histBS_Prepayments
  | i + 1 => p.cost (i + 1) * b.prepayment_ratio

/-- Fixed assets row (balance_sheet.py line 78): compound growth from the
historical value. -/
def bs_fixed_assets (b : BSAssumptions) : Nat → ℚ
  | 0 => histBS_FixedAssets
  | i + 1 => bs_fixed_assets b i * (1 + b.fixed_asset_growth)

/-- Accounts payable row (balance_sheet.py line 81). -/
def bs_payables (p : PLTable) (b : BSAssumptions) : Nat → ℚ
  | 0 => histBS_AP
  | i + 1 => p.cost (i + 1) * b.payables_ratio

/-- Advances from customers row (balance_sheet.py line 82). -/
def bs_advances (p : PLTable) (b : BSAssumptions) : Nat → ℚ
  | 0 => histBS_Advances
  | i + 1 => p.revenue (i + 1) * b.advance_ratio

/-- Total liabilities row (balance_sheet.py line 83). -/
def bs_total_liabilities (p : PLTable) (b : BSAssumptions) : Nat → ℚ
  | 0 => histBS_TotalLiabilities
  | i + 1 => bs_payables p b (i + 1) + bs_advances p b (i + 1)

/-- Share capital row (balance_sheet.py line 86): the capital increase is
added only when the forecast loop index equals 1. -/
def bs_capital (b : BSAssumptions) : Nat → ℚ
  | 0 => histBS_ShareCapital
  | i + 1 => bs_capital b i + (if i + 1 = 1 then b.capital_increase else 0)

/-- Retained earnings row (balance_sheet.py line 87). -/
def bs_retained_earnings (p : PLTable) (b : BSAssumptions) : Nat → ℚ
  | 0 => histBS_RetainedEarnings
  | i + 1 => bs_retained_earnings p b i + p.net_profit (i + 1)

/-- Total equity row (balance_sheet.py line 88). -/
def bs_total_equity (p : PLTable) (b : BSAssumptions) : Nat → ℚ
  | 0 => histBS_TotalEquity
  | i + 1 => bs_capital b (i + 1) + bs_retained_earnings p b (i + 1)

/-- Total liabilities and equity row (balance_sheet.py line 91). -/
def bs_total_liab_equity (p : PLTable) (b : BSAssumptions) : Nat → ℚ
  | 0 => histBS_TotalLiabEquity
  | i + 1 => bs_total_liabilities p b (i + 1) + bs_total_equity p b (i + 1)

/-- Cash row (balance_sheet.py lines 92-93): the balancing plug, total
liabilities and equity minus the other asset lines. -/
def bs_cash (p : PLTable) (b : BSAssumptions) : Nat → ℚ
  | 0 => histBS_Cash
  | i + 1 => bs_total_liab_equity p b (i + 1)
      - (bs_receivables p b (i + 1) + bs_prepayments p b (i + 1)
          + bs_fixed_assets b (i + 1))

/-- Total assets row (balance_sheet.py line 100): set to total liabilities
and equity, never forecast independently. -/
def bs_total_assets (p : PLTable) (b : BSAssumptions) : Nat → ℚ
  | 0 => histBS_TotalAssets
  | i + 1 => bs_total_liab_equity p b (i + 1)

/-- The rows of the balance sheet forecast table that the cash flow
statement reads by name (cash_flow.py lines 38-43). -/
structure BSTable where
  fixed_assets : Nat → ℚ
  receivables : Nat → ℚ
  prepayments : Nat → ℚ
  payables : Nat → ℚ
  advances : Nat → ℚ
  capital : Nat → ℚ

/-- The balance sheet forecast table produced by
create_balance_sheet_section, restricted to the rows consumed
downstream. -/
def bsTableOf (p : PLTable) (b : BSAssumptions) : BSTable :=
  ⟨bs_fixed_assets b, bs_receivables p b, bs_prepayments p b,
   bs_payables p b, bs_advances p b, bs_capital b⟩

/-- The default widget values of balance_sheet.py: AR ratio 0.11,
prepayment ratio 0.01, AP ratio 0.20, advances ratio 0.01, fixed asset
growth 0.20, capital increase 325. -/
def defaultBSA : BSAssumptions :=
  ⟨11/100, 1/100, 20/100, 1/100, 20/100, 325⟩

/-! ## Cash flow forecaster (cash_flow.py) -/

/-- Depreciation (cash_flow.py line 46): fixed assets times the
depreciation rate, for every period including period 0. -/
def cf_depreciation (t : BSTable) (r : ℚ) (i : Nat) : ℚ :=
  t.fixed_assets i * r

/-- Operating cash flow (cash_flow.py lines 60 and 67-74): period 0 is net
profit plus depreciation; forecast periods add back depreciation and the
backward differences of the working capital lines. -/
def cf_operating (p : PLTable) (t : BSTable) (r : ℚ) : Nat → ℚ
  | 0 => p.net_profit 0 + cf_depreciation t r 0
  | i + 1 =>
      p.net_profit (i + 1) + cf_depreciation t r (i + 1)
        - (t.receivables (i + 1) - t.receivables i)
        - (t.prepayments (i + 1) - t.prepayments i)
        + (t.payables (i + 1) - t.payables i)
        + (t.advances (i + 1) - t.advances i)

/-- Investing cash flow (cash_flow.py lines 61 and 78). -/
def cf_investing (t : BSTable) (r : ℚ) : Nat → ℚ
  | 0 => 0
  | i + 1 => -(t.fixed_assets (i + 1) - t.fixed_assets i
      + cf_depreciation t r (i + 1))

/-- Financing cash flow (cash_flow.py lines 62 and 82): the backward
difference of share capital. -/
def cf_financing (t : BSTable) : Nat → ℚ
  | 0 => 0
  | i + 1 => t.capital (i + 1) - t.capital i

/-- Net cash flow (cash_flow.py lines 86-93): the sum of the three
components, for every period. -/
def cf_net (p : PLTable) (t : BSTable) (r : ℚ) (i : Nat) : ℚ :=
  cf_operating p t r i + cf_investing t r i + cf_financing t i

/-! ## Derived metrics and division behavior -/

/-- Fallible division: Python float division raises ZeroDivisionError on a
zero denominator (and the numpy variant yields an out-of-band infinity);
either way no valid per-metric number is produced, modelled as none. -/
def divOpt (x y : ℚ) : Option ℚ :=
  if y = 0 then none else some (x / y)

/-- Sequential building of a list of ratios, mirroring the Python list
comprehensions over zipped rows: evaluation proceeds left to right and the
first zero denominator aborts the whole computation. -/
def ratioList (num den : Nat → ℚ) : Nat → Option (List ℚ)
  | 0 => some []
  | n + 1 =>
      match ratioList num den n, divOpt (num n) (den n) with
      | some l, some r => some (l ++ [r])
      | _, _ => none

/-- Gross margin metric (profit_loss.py line 160): unguarded division of
gross profit by revenue over the four periods. -/
def gross_margins (a : PLAssumptions) : Option (List ℚ) :=
  ratioList (gross_profits a) (revenues a) 4

/-- Net margin metric (profit_loss.py line 168): unguarded division of net
profit by revenue over the four periods. -/
def net_margins (a : PLAssumptions) : Option (List ℚ) :=
  ratioList (operating_profits a) (revenues a) 4

/-- Debt ratio metric (balance_sheet.py lines 127-132): unguarded division
of total liabilities by total assets over the four periods. -/
def debt_ratios (p : PLTable) (b : BSAssumptions) : Option (List ℚ) :=
  ratioList (bs_total_liabilities p b) (bs_total_assets p b) 4

/-- Fixed asset ratio metric (balance_sheet.py lines 140-145). -/
def fixed_asset_ratios (p : PLTable) (b : BSAssumptions) : Option (List ℚ) :=
  ratioList (bs_fixed_assets b) (bs_total_assets p b) 4

/-- Equity ratio metric (balance_sheet.py lines 153-158). -/
def equity_ratios (p : PLTable) (b : BSAssumptions) : Option (List ℚ) :=
  ratioList (bs_total_equity p b) (bs_total_assets p b) 4

/-- Operating cash flow over net profit metric (cash_flow.py lines
112-115): guarded, but a zero net profit degrades to the plain number 0
rather than to a distinguishable marker. -/
def operating_cf_ratio (p : PLTable) (t : BSTable) (r : ℚ) (i : Nat) : ℚ :=
  if p.net_profit i ≠ 0 then cf_operating p t r i / p.net_profit i else 0

/-- CAPEX over operating cash flow metric (cash_flow.py lines 123-125):
guarded, degrading to the plain number 0 on a zero denominator. -/
def capex_ratio (p : PLTable) (t : BSTable) (r : ℚ) (i : Nat) : ℚ :=
  if cf_operating p t r i ≠ 0 then
    -(cf_investing t r i) / cf_operating p t r i
  else 0

/-- Output of the net cash flow CAGR metric: either a plain rational
displayed as a percentage, or a record that the code evaluates the
floating point expression base ** (1/3) - 1 with the given rational base
(with a negative base this float power is NaN or complex). -/
inductive CFGrowthOutput where
  | numeric : ℚ → CFGrowthOutput
  | fracPower : ℚ → CFGrowthOutput
deriving DecidableEq

/-- Net cash flow CAGR metric (cash_flow.py line 134): when net cash flow
at period 0 is nonzero the code computes the cube root expression with
base equal to the ratio of last to first net cash flow; otherwise it
yields the number 0. -/
def cf_growth (p : PLTable) (t : BSTable) (r : ℚ) : CFGrowthOutput :=
  if cf_net p t r 0 ≠ 0 then
    CFGrowthOutput.fracPower (cf_net p t r 3 / cf_net p t r 0)
  else CFGrowthOutput.numeric 0

/-- Modelled from the spec: the required behavior of the net cash flow
CAGR metric, which reports not applicable, represented by none, whenever
net cash flow at period 0 is nonpositive, and otherwise computes the
fractional power with a positive base. -/
def cf_growth_spec (p : PLTable) (t : BSTable) (r : ℚ) : Option CFGrowthOutput :=
  if cf_net p t r 0 ≤ 0 then none
  else some (CFGrowthOutput.fracPower (cf_net p t r 3 / cf_net p t r 0))

/-! ## Orchestrator session model (main.py) -/

/-- The session state variables of main.py lines 9-18. -/
structure SessionState where
  profit_loss_data : Option PLTable
  balance_sheet_data : Option BSTable
  is_pl_generated : Bool
  is_bs_generated : Bool

/-- The initial session state (main.py init_session_state, and also the
result of reset_all_data). -/
def initState : SessionState := ⟨none, none, false, false⟩

/-- What happens during one script rerun: whether the P&L section produced
a fresh table, whether the balance sheet generate button was pressed,
whether an exception occurred inside the balance sheet generation, and the
assumption values in its widgets. -/
structure RunEvents where
  pl_result : Option PLTable
  bs_clicked : Bool
  bs_fails : Bool
  bs_asm : BSAssumptions

/-- Result of create_balance_sheet_section (balance_sheet.py lines
63-258): none when the button was not pressed, none when an exception is
caught by the broad handler (lines 254-256), and otherwise the complete
freshly computed table. -/
def create_balance_sheet_section (p : PLTable) (b : BSAssumptions)
    (clicked fails : Bool) : Option BSTable :=
  if clicked then (if fails then none else some (bsTableOf p b)) else none

/-- Tab 1 of main.py (lines 47-54): a fresh P&L result is stored, the
generated flag set, and the stored balance sheet data and flag cleared;
otherwise the state is untouched. -/
def tab1Step (s : SessionState) (ev : RunEvents) : SessionState :=
  match ev.pl_result with
  | some t => ⟨some t, none, true, false⟩
  | none => s

/-- Log of one script rerun: the argument passed to the balance sheet
section when it was invoked, and the pair of arguments passed to the cash
flow section when it was invoked. -/
structure RunLog where
  bs_arg : Option (Option PLTable)
  cf_arg : Option (Option PLTable × Option BSTable)

/-- One full top-to-bottom rerun of main.py (lines 47-77): tab 1 updates
the P&L state, tab 2 invokes the balance sheet section only when the P&L
flag is set and stores a non-none result, tab 3 invokes the cash flow
section only when both flags are set. -/
def runScript (s : SessionState) (ev : RunEvents) : SessionState × RunLog :=
  let s1 := tab1Step s ev
  let s2 :=
    if s1.is_pl_generated then
      match s1.profit_loss_data with
      | some p =>
          match create_balance_sheet_section p ev.bs_asm ev.bs_clicked ev.bs_fails with
          | some t => { s1 with balance_sheet_data := some t, is_bs_generated := true }
          | none => s1
      | none => s1
    else s1
  let log : RunLog :=
    { bs_arg := if s1.is_pl_generated then some s1.profit_loss_data else none,
      cf_arg := if s2.is_pl_generated && s2.is_bs_generated then
          some (s2.profit_loss_data, s2.balance_sheet_data) else none }
  (s2, log)

/-- The session states reachable from the initial state by any sequence of
script reruns. -/
inductive Reachable : SessionState → Prop where
  | init : Reachable initState
  | step : ∀ s ev, Reachable s → Reachable (runScript s ev).1

/-! ## Concrete tables used in counterexamples and witnesses -/

/-- Balance sheet assumptions identical to the defaults except that the
capital increase typed into the number input is -1653, chosen so that
total assets at period 1 is exactly zero under the default P&L. -/
def bsAsmZeroTA : BSAssumptions :=
  ⟨11/100, 1/100, 20/100, 1/100, 20/100, -1653⟩

/-- A P&L table whose rows are identically zero, exercising the zero net
profit guard of the cash flow metrics. -/
def pZeroCF : PLTable :=
  ⟨fun _ => 0, fun _ => 0, fun _ => 0⟩

/-- A P&L table with net profit -8 at period 0 and 8 afterwards,
exercising the negative-base branch of the net cash flow CAGR. -/
def pNegCF : PLTable :=
  ⟨fun _ => 0, fun _ => 0, fun i => if i = 0 then -8 else 8⟩

/-- A balance sheet table with constant fixed assets 16 and all other rows
zero. -/
def tConst16 : BSTable :=
  ⟨fun _ => 16, fun _ => 0, fun _ => 0, fun _ => 0, fun _ => 0, fun _ => 0⟩

/-- A balance sheet table with all rows identically zero. -/
def tAllZero : BSTable :=
  ⟨fun _ => 0, fun _ => 0, fun _ => 0, fun _ => 0, fun _ => 0, fun _ => 0⟩

/-! ## Claim theorems -/

/-- C1: for every P&L table, every assumption set and every period of the
four-period balance sheet, total assets equals total liabilities plus
total equity; cash is the residual plug, equal to total liabilities plus
total equity minus the other asset lines; and total assets is set to the
total liabilities and equity column, never forecast independently. -/
theorem balance_sheet_identity (p : PLTable) (b : BSAssumptions) (i : Fin 4) :
    bs_total_assets p b i.val
        = bs_total_liabilities p b i.val + bs_total_equity p b i.val ∧
    bs_cash p b i.val
        = (bs_total_liabilities p b i.val + bs_total_equity p b i.val)
          - (bs_receivables p b i.val + bs_prepayments p b i.val
              + bs_fixed_assets b i.val) ∧
    bs_total_assets p b i.val = bs_total_liab_equity p b i.val := by
  obtain ⟨i, hi⟩ := i
  match i with
  | 0 =>
      refine ⟨?_, ?_, ?_⟩ <;>
        norm_num [bs_total_assets, bs_total_liabilities, bs_total_equity,
          bs_cash, bs_receivables, bs_prepayments, bs_fixed_assets,
          bs_total_liab_equity, histBS_TotalAssets, histBS_TotalLiabilities,
          histBS_TotalEquity, histBS_Cash, histBS_AR, histBS_Prepayments,
          histBS_FixedAssets, histBS_TotalLiabEquity]
  | n + 1 =>
      refine ⟨?_, ?_, ?_⟩ <;>
        simp [bs_total_assets, bs_total_liab_equity, bs_cash]

/-- C2: for every assumption set and forecast period, revenue compounds by
the growth rate, each cost and expense line is revenue times its ratio,
gross profit is revenue minus cost, and net profit is revenue minus the
four cost and expense lines; under the default assumptions the revenue
sequence is 1000, 1150, 1322.5, 1520.875 and period 1 net profit is
241.5. -/
theorem profit_loss_recurrence_and_scenario :
    (∀ (a : PLAssumptions) (i : Nat),
      revenues a (i + 1) = revenues a i * (1 + a.revenue_growth_rates i) ∧
      costs a (i + 1) = revenues a (i + 1) * a.cost_ratios i ∧
      sales_expenses a (i + 1) = revenues a (i + 1) * a.sales_expense_ratios i ∧
      management_expenses a (i + 1)
          = revenues a (i + 1) * a.management_expense_ratios i ∧
      financial_expenses a (i + 1)
          = revenues a (i + 1) * a.financial_expense_ratios i ∧
      gross_profits a (i + 1) = revenues a (i + 1) - costs a (i + 1) ∧
      operating_profits a (i + 1)
          = revenues a (i + 1) - costs a (i + 1) - sales_expenses a (i + 1)
            - management_expenses a (i + 1) - financial_expenses a (i + 1)) ∧
    revenues defaultPLA 0 = 1000 ∧
    revenues defaultPLA 1 = 1150 ∧
    revenues defaultPLA 2 = 2645/2 ∧
    revenues defaultPLA 3 = 12167/8 ∧
    operating_profits defaultPLA 1 = 483/2 := by
  refine ⟨fun a i => ⟨rfl, rfl, rfl, rfl, rfl, rfl, rfl⟩, ?_, ?_, ?_, ?_, ?_⟩ <;>
    norm_num [revenues, costs, sales_expenses, management_expenses,
      financial_expenses, operating_profits, defaultPLA, hist_Revenue]

/-- C3: for every P&L table, balance sheet table and depreciation rate,
depreciation is fixed assets times the rate in every period including
period 0; period 0 is reported as net profit plus depreciation with zero
investing and financing flows; each forecast period uses single-step
backward differences; net cash flow is the sum of the three components in
every period; and the concrete period 0 scenario with net profit 200,
fixed assets 16 and rate 0.10 yields depreciation 1.6 and net flow
201.6. -/
theorem cash_flow_formulas_and_scenario :
    (∀ (p : PLTable) (t : BSTable) (r : ℚ),
      (∀ i : Nat, cf_depreciation t r i = t.fixed_assets i * r) ∧
      cf_operating p t r 0 = p.net_profit 0 + cf_depreciation t r 0 ∧
      cf_investing t r 0 = 0 ∧
      cf_financing t 0 = 0 ∧
      (∀ i : Nat,
        cf_operating p t r (i + 1)
            = p.net_profit (i + 1) + cf_depreciation t r (i + 1)
              - (t.receivables (i + 1) - t.receivables i)
              - (t.prepayments (i + 1) - t.prepayments i)
              + (t.payables (i + 1) - t.payables i)
              + (t.advances (i + 1) - t.advances i) ∧
        cf_investing t r (i + 1)
            = -(t.fixed_assets (i + 1) - t.fixed_assets i
                + cf_depreciation t r (i + 1)) ∧
        cf_financing t (i + 1) = t.capital (i + 1) - t.capital i) ∧
      (∀ i : Nat, cf_net p t r i
          = cf_operating p t r i + cf_investing t r i + cf_financing t i)) ∧
    (plTableOf defaultPLA).net_profit 0 = 200 ∧
    (bsTableOf (plTableOf defaultPLA) defaultBSA).fixed_assets 0 = 16 ∧
    cf_depreciation (bsTableOf (plTableOf defaultPLA) defaultBSA) (1/10) 0 = 8/5 ∧
    cf_operating (plTableOf defaultPLA) (bsTableOf (plTableOf defaultPLA) defaultBSA) (1/10) 0 = 1008/5 ∧
    cf_investing (bsTableOf (plTableOf defaultPLA) defaultBSA) (1/10) 0 = 0 ∧
    cf_financing (bsTableOf (plTableOf defaultPLA) defaultBSA) 0 = 0 ∧
    cf_net (plTableOf defaultPLA) (bsTableOf (plTableOf defaultPLA) defaultBSA) (1/10) 0 = 1008/5 := by
  refine ⟨fun p t r => ⟨fun i => rfl, rfl, rfl, rfl, fun i => ⟨rfl, rfl, rfl⟩, fun i => rfl⟩,
    ?_, ?_, ?_, ?_, ?_, ?_, ?_⟩ <;>
    norm_num [plTableOf, bsTableOf, cf_depreciation, cf_operating,
      cf_investing, cf_financing, cf_net, operating_profits, revenues, costs,
      sales_expenses, management_expenses, financial_expenses, defaultPLA,
      bs_fixed_assets, histBS_FixedAssets, hist_Revenue, hist_Cost,
      hist_SellingExpense, hist_AdminExpense, hist_FinancialExpense]

/-- C4: for every assumption set, the period 0 column of the generated P&L
equals the hardcoded historical baseline line by line, including gross
profit and net profit; and for every P&L table and assumption set, the
period 0 column of the generated balance sheet equals the hardcoded
historical baseline verbatim on every line item. -/
theorem period_zero_columns_match_baseline :
    (∀ a : PLAssumptions,
      revenues a 0 = hist_Revenue ∧
      costs a 0 = hist_Cost ∧
      gross_profits a 0 = hist_GrossProfit ∧
      sales_expenses a 0 = hist_SellingExpense ∧
      management_expenses a 0 = hist_AdminExpense ∧
      financial_expenses a 0 = hist_FinancialExpense ∧
      operating_profits a 0 = hist_NetProfit) ∧
    (∀ (p : PLTable) (b : BSAssumptions),
      bs_cash p b 0 = histBS_Cash ∧
      bs_receivables p b 0 = histBS_AR ∧
      bs_prepayments p b 0 = histBS_Prepayments ∧
      bs_fixed_assets b 0 = histBS_FixedAssets ∧
      bs_total_assets p b 0 = histBS_TotalAssets ∧
      bs_payables p b 0 = histBS_AP ∧
      bs_advances p b 0 = histBS_Advances ∧
      bs_total_liabilities p b 0 = histBS_TotalLiabilities ∧
      bs_capital b 0 = histBS_ShareCapital ∧
      bs_retained_earnings p b 0 = histBS_RetainedEarnings ∧
      bs_total_equity p b 0 = histBS_TotalEquity ∧
      bs_total_liab_equity p b 0 = histBS_TotalLiabEquity) := by
  constructor
  · intro a
    refine ⟨rfl, rfl, ?_, rfl, rfl, rfl, ?_⟩ <;>
      norm_num [gross_profits, operating_profits, revenues, costs,
        sales_expenses, management_expenses, financial_expenses,
        hist_Revenue, hist_Cost, hist_GrossProfit, hist_SellingExpense,
        hist_AdminExpense, hist_FinancialExpense, hist_NetProfit]
  · intro p b
    exact ⟨rfl, rfl, rfl, rfl, rfl, rfl, rfl, rfl, rfl, rfl, rfl, rfl⟩

/-- C8: for every assumption set, share capital in forecast period 1 is
the historical capital plus the capital increase, and in every later
forecast period the capital stays unchanged, the increase being applied
only in period 1; retained earnings in each forecast period is the prior
value plus the same-period net profit from the P&L. -/
theorem capital_retained_earnings_recurrence (p : PLTable) (b : BSAssumptions) :
    (∀ i : Nat, bs_capital b (i + 1)
        = bs_capital b i + (if i + 1 = 1 then b.capital_increase else 0)) ∧
    bs_capital b 1 = histBS_ShareCapital + b.capital_increase ∧
    bs_capital b 2 = bs_capital b 1 ∧
    bs_capital b 3 = bs_capital b 1 ∧
    (∀ i : Nat, bs_retained_earnings p b (i + 1)
        = bs_retained_earnings p b i + p.net_profit (i + 1)) := by
  refine ⟨fun i => rfl, ?_, ?_, ?_, fun i => rfl⟩ <;>
    simp [bs_capital]

/-- Helper: with a nonnegative growth rate the fixed assets row stays
strictly positive in every period. -/
theorem bs_fixed_assets_pos (b : BSAssumptions)
    (h : 0 ≤ b.fixed_asset_growth) (i : Nat) : 0 < bs_fixed_assets b i := by
  induction i with
  | zero => norm_num [bs_fixed_assets, histBS_FixedAssets]
  | succ n ih =>
      have h1 : (0:ℚ) < 1 + b.fixed_asset_growth := by linarith
      simpa [bs_fixed_assets] using mul_pos ih h1

/-- C9: the historical fixed assets value is the positive 16, and for any
two assumption sets agreeing except for the fixed asset growth rate, with
both rates in the slider range and the first strictly smaller, every
forecast period has strictly larger fixed assets under the larger rate. -/
theorem fixed_assets_monotone (b1 b2 : BSAssumptions)
    (h0 : 0 ≤ b1.fixed_asset_growth)
    (h12 : b1.fixed_asset_growth < b2.fixed_asset_growth)
    (h2 : b2.fixed_asset_growth ≤ 1/2) :
    bs_fixed_assets b1 0 = 16 ∧ (0:ℚ) < bs_fixed_assets b1 0 ∧
    ∀ i : Nat, bs_fixed_assets b1 (i + 1) < bs_fixed_assets b2 (i + 1) := by
  refine ⟨rfl, by norm_num [bs_fixed_assets, histBS_FixedAssets], ?_⟩
  intro i
  induction i with
  | zero =>
      have hpos : (0:ℚ) < histBS_FixedAssets := by norm_num [histBS_FixedAssets]
      simp only [bs_fixed_assets]
      exact mul_lt_mul_of_pos_left (by linarith) hpos
  | succ n ih =>
      have hp1 : 0 < bs_fixed_assets b2 (n + 1) :=
        bs_fixed_assets_pos b2 (le_of_lt (lt_of_le_of_lt h0 h12)) (n + 1)
      have hg1 : (0:ℚ) < 1 + b1.fixed_asset_growth := by linarith
      calc bs_fixed_assets b1 (n + 2)
          = bs_fixed_assets b1 (n + 1) * (1 + b1.fixed_asset_growth) := rfl
        _ < bs_fixed_assets b2 (n + 1) * (1 + b1.fixed_asset_growth) :=
            mul_lt_mul_of_pos_right ih hg1
        _ < bs_fixed_assets b2 (n + 1) * (1 + b2.fixed_asset_growth) :=
            mul_lt_mul_of_pos_left (by linarith) hp1
        _ = bs_fixed_assets b2 (n + 2) := rfl

/-- Witness for C9 at the default growth rate 0.20 against the larger rate
0.30, evaluated at forecast period 1. -/
theorem fixed_assets_monotone_witness :
    bs_fixed_assets defaultBSA 0 = 16 ∧
    bs_fixed_assets defaultBSA 1
        < bs_fixed_assets ⟨11/100, 1/100, 20/100, 1/100, 30/100, 325⟩ 1 :=
  ⟨(fixed_assets_monotone defaultBSA ⟨11/100, 1/100, 20/100, 1/100, 30/100, 325⟩
      (by norm_num [defaultBSA]) (by norm_num [defaultBSA]) (by norm_num)).1,
   (fixed_assets_monotone defaultBSA ⟨11/100, 1/100, 20/100, 1/100, 30/100, 325⟩
      (by norm_num [defaultBSA]) (by norm_num [defaultBSA]) (by norm_num)).2.2 0⟩

/-- Helper: the sequential ratio computation aborts with none whenever any
denominator within range is zero. -/
theorem ratioList_none (num den : Nat → ℚ) (n k : Nat) (hk : k < n)
    (h : den k = 0) : ratioList num den n = none := by
  induction n with
  | zero => omega
  | succ m ih =>
      rcases Nat.lt_succ_iff_lt_or_eq.mp hk with hkm | hkm
      · have h2 := ih hkm
        unfold ratioList
        rw [h2]
      · subst hkm
        have h2 : divOpt (num k) (den k) = none := by simp [divOpt, h]
        unfold ratioList
        rw [h2]
        rcases ratioList num den k with _ | l <;> rfl

/-- Helper: the sequential ratio computation succeeds when every
denominator within range is nonzero. -/
theorem ratioList_isSome (num den : Nat → ℚ) (n : Nat)
    (h : ∀ k, k < n → den k ≠ 0) : (ratioList num den n).isSome := by
  induction n with
  | zero => rfl
  | succ m ih =>
      have h1 : (ratioList num den m).isSome :=
        ih (fun k hk => h k (by omega))
      obtain ⟨l, hl⟩ := Option.isSome_iff_exists.mp h1
      have h2 : divOpt (num m) (den m) = some (num m / den m) := by
        simp [divOpt, h m (by omega)]
      unfold ratioList
      rw [hl, h2]
      rfl

/-- Helper: with nonnegative growth rates every revenue entry stays
strictly positive, starting from the historical 1000. -/
theorem revenues_pos (a : PLAssumptions)
    (hg : ∀ k, 0 ≤ a.revenue_growth_rates k) (i : Nat) : 0 < revenues a i := by
  induction i with
  | zero => norm_num [revenues, hist_Revenue]
  | succ n ih =>
      have h1 : (0:ℚ) < 1 + a.revenue_growth_rates n := by linarith [hg n]
      simpa [revenues] using mul_pos ih h1

/-- C5 counterexample: with the default P&L and the reachable capital
increase -1653, total assets at period 1 is exactly zero and the debt
ratio computation yields no value at all, aborting the whole metric block
instead of degrading the one affected metric to a sentinel; and in the
cash flow metrics a zero net profit with a nonzero operating cash flow
degrades to the in-band number 0, indistinguishable from a genuine zero
ratio, not to an explicit not-applicable marker. -/
theorem metrics_no_sentinel_counterexample :
    bs_total_assets (plTableOf defaultPLA) bsAsmZeroTA 1 = 0 ∧
    debt_ratios (plTableOf defaultPLA) bsAsmZeroTA = none ∧
    pZeroCF.net_profit 0 = 0 ∧
    cf_operating pZeroCF tConst16 (1/10) 0 = 8/5 ∧
    operating_cf_ratio pZeroCF tConst16 (1/10) 0 = 0 := by
  have hTA : bs_total_assets (plTableOf defaultPLA) bsAsmZeroTA 1 = 0 := by
    norm_num [bs_total_assets, bs_total_liab_equity, bs_total_liabilities,
      bs_payables, bs_advances, bs_total_equity, bs_capital,
      bs_retained_earnings, plTableOf, operating_profits, revenues, costs,
      sales_expenses, management_expenses, financial_expenses, defaultPLA,
      bsAsmZeroTA, histBS_ShareCapital, histBS_RetainedEarnings,
      hist_Revenue, hist_Cost, hist_SellingExpense, hist_AdminExpense,
      hist_FinancialExpense]
  refine ⟨hTA, ratioList_none _ _ 4 1 (by norm_num) hTA, rfl, ?_, ?_⟩
  · norm_num [cf_operating, cf_depreciation, pZeroCF, tConst16]
  · simp [operating_cf_ratio, pZeroCF]

/-- C5 amended: under in-range growth assumptions every revenue entry is
positive, so the P&L margin denominators are never zero and the margin
lists compute; the two guarded cash flow metrics degrade to the plain
number 0 on a zero denominator, not to an explicit not-applicable
sentinel; and a zero total assets entry in any of the four periods makes
each unguarded balance sheet ratio computation yield no value at all, so
the division failure is handled only by the statement-wide handler, not by
a per-metric sentinel. -/
theorem metrics_degradation_behavior (a : PLAssumptions)
    (hg : ∀ k, 0 ≤ a.revenue_growth_rates k) :
    (∀ i : Nat, 0 < revenues a i) ∧
    (gross_margins a).isSome ∧
    (net_margins a).isSome ∧
    (∀ (p : PLTable) (t : BSTable) (r : ℚ) (i : Nat),
        p.net_profit i = 0 → operating_cf_ratio p t r i = 0) ∧
    (∀ (p : PLTable) (t : BSTable) (r : ℚ) (i : Nat),
        cf_operating p t r i = 0 → capex_ratio p t r i = 0) ∧
    (∀ (p : PLTable) (b : BSAssumptions) (k : Fin 4),
        bs_total_assets p b k.val = 0 →
          debt_ratios p b = none ∧ fixed_asset_ratios p b = none ∧
          equity_ratios p b = none) := by
  refine ⟨revenues_pos a hg, ?_, ?_, ?_, ?_, ?_⟩
  · exact ratioList_isSome _ _ 4
      (fun k _ => ne_of_gt (revenues_pos a hg k))
  · exact ratioList_isSome _ _ 4
      (fun k _ => ne_of_gt (revenues_pos a hg k))
  · intro p t r i h
    simp [operating_cf_ratio, h]
  · intro p t r i h
    simp [capex_ratio, h]
  · intro p b k h
    exact ⟨ratioList_none _ _ 4 k.val k.isLt h,
      ratioList_none _ _ 4 k.val k.isLt h,
      ratioList_none _ _ 4 k.val k.isLt h⟩

/-- Witness for the amended C5 at the default P&L assumptions and a
concrete zero net profit input. -/
theorem metrics_degradation_behavior_witness :
    0 < revenues defaultPLA 1 ∧
    operating_cf_ratio pZeroCF tConst16 (1/10) 0 = 0 :=
  ⟨(metrics_degradation_behavior defaultPLA
      (fun k => by norm_num [defaultPLA])).1 1,
   (metrics_degradation_behavior defaultPLA
      (fun k => by norm_num [defaultPLA])).2.2.2.1 pZeroCF tConst16 (1/10) 0 rfl⟩

/-- C6 counterexample: at the boundary input with zero net cash flow in
period 0 the code yields the in-band number 0, displayed as a percentage,
while the spec requires a not-applicable report; and at a reachable input
with net cash flow -8 in period 0 and 8 in period 3 the guard passes and
the code evaluates the fractional power with the negative base -1, which
in floating point is NaN or complex, again instead of a not-applicable
report. -/
theorem netcf_cagr_counterexample :
    cf_net pZeroCF tAllZero 0 0 = 0 ∧
    cf_growth pZeroCF tAllZero 0 = CFGrowthOutput.numeric 0 ∧
    cf_growth_spec pZeroCF tAllZero 0 = none ∧
    cf_net pNegCF tAllZero 0 0 = -8 ∧
    cf_growth pNegCF tAllZero 0 = CFGrowthOutput.fracPower (-1) ∧
    cf_growth_spec pNegCF tAllZero 0 = none := by
  refine ⟨?_, ?_, ?_, ?_, ?_, ?_⟩ <;>
    norm_num [cf_net, cf_growth, cf_growth_spec, cf_operating, cf_investing,
      cf_financing, cf_depreciation, pZeroCF, pNegCF, tAllZero]

/-- C6 amended: the code guards only on net cash flow at period 0 being
nonzero; when it is zero the metric is the plain number 0, and whenever it
is nonzero, including every negative value, the fractional power is
evaluated with base equal to the ratio of the last to the first net cash
flow; the spec-modelled metric instead reports none for every nonpositive
base period value. -/
theorem netcf_cagr_behavior (p : PLTable) (t : BSTable) (r : ℚ) :
    (cf_net p t r 0 = 0 → cf_growth p t r = CFGrowthOutput.numeric 0) ∧
    (cf_net p t r 0 ≠ 0 →
        cf_growth p t r
          = CFGrowthOutput.fracPower (cf_net p t r 3 / cf_net p t r 0)) ∧
    (cf_net p t r 0 ≤ 0 → cf_growth_spec p t r = none) := by
  refine ⟨fun h => by simp [cf_growth, h], fun h => by simp [cf_growth, h],
    fun h => by simp [cf_growth_spec, h]⟩

/-- Witness for the amended C6 at the two concrete inputs of the
counterexample. -/
theorem netcf_cagr_behavior_witness :
    cf_growth pZeroCF tAllZero 0 = CFGrowthOutput.numeric 0 ∧
    cf_growth pNegCF tAllZero 0
        = CFGrowthOutput.fracPower
            (cf_net pNegCF tAllZero 0 3 / cf_net pNegCF tAllZero 0 0) :=
  ⟨(netcf_cagr_behavior pZeroCF tAllZero 0).1
      (by norm_num [cf_net, cf_operating, cf_investing, cf_financing,
        cf_depreciation, pZeroCF, tAllZero]),
   (netcf_cagr_behavior pNegCF tAllZero 0).2.1
      (by norm_num [cf_net, cf_operating, cf_investing, cf_financing,
        cf_depreciation, pNegCF, tAllZero])⟩

/-- Helper: the balance sheet section argument logged by one rerun is the
P&L data present after tab 1, and only when the P&L flag is set. -/
theorem runScript_bs_arg (s : SessionState) (ev : RunEvents) :
    (runScript s ev).2.bs_arg
      = if (tab1Step s ev).is_pl_generated
          then some (tab1Step s ev).profit_loss_data else none := rfl

/-- Helper: the cash flow section arguments logged by one rerun are the
data held after tab 2, and only when both generated flags are set. -/
theorem runScript_cf_arg (s : SessionState) (ev : RunEvents) :
    (runScript s ev).2.cf_arg
      = if (runScript s ev).1.is_pl_generated
            && (runScript s ev).1.is_bs_generated
          then some ((runScript s ev).1.profit_loss_data,
                     (runScript s ev).1.balance_sheet_data)
          else none := rfl

/-- Helper: every reachable session state has its data present whenever
the corresponding generated flag is set, and the balance sheet flag
implies the P&L flag. -/
theorem session_invariant (s : SessionState) (h : Reachable s) :
    (s.is_pl_generated = true → s.profit_loss_data.isSome) ∧
    (s.is_bs_generated = true →
      s.balance_sheet_data.isSome ∧ s.is_pl_generated = true) := by
  induction h with
  | init => simp [initState]
  | step s ev hs ih =>
      rcases hev : ev.pl_result with _ | t
      · have hs1 : tab1Step s ev = s := by simp [tab1Step, hev]
        by_cases hp : s.is_pl_generated = true
        · obtain ⟨p, hpd⟩ := Option.isSome_iff_exists.mp (ih.1 hp)
          rcases hbs : create_balance_sheet_section p ev.bs_asm
              ev.bs_clicked ev.bs_fails with _ | u
          · simp only [runScript, hs1, hp, hpd, hbs]
            simpa [hpd] using ih
          · simp only [runScript, hs1, hp, hpd, hbs]
            simp [hp]
        · have hp2 : s.is_pl_generated = false := by
            revert hp; cases s.is_pl_generated <;> simp
          simp only [runScript, hs1, hp2]
          simpa using ih
      · have hs1 : tab1Step s ev = ⟨some t, none, true, false⟩ := by
          simp [tab1Step, hev]
        rcases hbs : create_balance_sheet_section t ev.bs_asm
            ev.bs_clicked ev.bs_fails with _ | u
        · simp [runScript, hs1, hbs]
        · simp [runScript, hs1, hbs]

/-- C7: in every reachable session state, one script rerun invokes the
balance sheet section only with a present P&L table, invokes the cash flow
section only when both the P&L and balance sheet data are present, and a
fresh P&L result clears the stored balance sheet data and flag in tab 1,
so that the balance sheet section then receives exactly the fresh table
and the cash flow section runs only on data recomputed from it in the same
rerun. -/
theorem orchestrator_freshness (s : SessionState) (ev : RunEvents)
    (hs : Reachable s) :
    (∀ x, (runScript s ev).2.bs_arg = some x → x.isSome) ∧
    (∀ y, (runScript s ev).2.cf_arg = some y → y.1.isSome ∧ y.2.isSome) ∧
    (∀ t, ev.pl_result = some t →
      (tab1Step s ev).balance_sheet_data = none ∧
      (tab1Step s ev).is_bs_generated = false ∧
      (∀ x, (runScript s ev).2.bs_arg = some x → x = some t) ∧
      (∀ y, (runScript s ev).2.cf_arg = some y →
        y.1 = some t ∧ y.2 = some (bsTableOf t ev.bs_asm))) := by
  have hinv2 := session_invariant _ (Reachable.step s ev hs)
  refine ⟨?_, ?_, ?_⟩
  · intro x hx
    rw [runScript_bs_arg] at hx
    cases hp : (tab1Step s ev).is_pl_generated with
    | false => rw [hp] at hx; simp at hx
    | true =>
        rw [hp] at hx
        simp only [if_true] at hx
        obtain rfl : (tab1Step s ev).profit_loss_data = x := by
          injection hx
        rcases hev : ev.pl_result with _ | t
        · have hs1 : tab1Step s ev = s := by simp [tab1Step, hev]
          rw [hs1]
          rw [hs1] at hp
          exact (session_invariant s hs).1 hp
        · have hs1 : tab1Step s ev = ⟨some t, none, true, false⟩ := by
            simp [tab1Step, hev]
          rw [hs1]
          rfl
  · intro y hy
    rw [runScript_cf_arg] at hy
    cases hb : ((runScript s ev).1.is_pl_generated
        && (runScript s ev).1.is_bs_generated) with
    | false => rw [hb] at hy; simp at hy
    | true =>
        rw [hb] at hy
        simp only [if_true] at hy
        obtain ⟨hpl, hbsg⟩ := (Bool.and_eq_true _ _).mp hb
        obtain rfl : ((runScript s ev).1.profit_loss_data,
            (runScript s ev).1.balance_sheet_data) = y := by
          injection hy
        exact ⟨hinv2.1 hpl, (hinv2.2 hbsg).1⟩
  · intro t ht
    have hs1 : tab1Step s ev = ⟨some t, none, true, false⟩ := by
      simp [tab1Step, ht]
    refine ⟨by rw [hs1], by rw [hs1], ?_, ?_⟩
    · intro x hx
      rw [runScript_bs_arg, hs1] at hx
      simpa using hx.symm
    · intro y hy
      rcases hbs : create_balance_sheet_section t ev.bs_asm
          ev.bs_clicked ev.bs_fails with _ | u
      · have h1 : (runScript s ev).1 = ⟨some t, none, true, false⟩ := by
          simp [runScript, hs1, hbs]
        rw [runScript_cf_arg, h1] at hy
        simp at hy
      · have hu : u = bsTableOf t ev.bs_asm := by
          cases hc : ev.bs_clicked with
          | false => simp [create_balance_sheet_section, hc] at hbs
          | true =>
              cases hf : ev.bs_fails with
              | true => simp [create_balance_sheet_section, hc, hf] at hbs
              | false =>
                  simp [create_balance_sheet_section, hc, hf] at hbs
                  exact hbs.symm
        have h1 : (runScript s ev).1 = ⟨some t, some u, true, true⟩ := by
          simp [runScript, hs1, hbs]
        rw [runScript_cf_arg, h1] at hy
        simp only [Bool.and_self, if_true] at hy
        obtain rfl : ((some t : Option PLTable), (some u : Option BSTable)) = y := by
          injection hy
        exact ⟨rfl, by rw [hu]⟩

/-- Witness for C7: from the initial state, a rerun that generates a fresh
P&L under the default assumptions clears the balance sheet state in tab
1. -/
theorem orchestrator_freshness_witness :
    (tab1Step initState
        ⟨some (plTableOf defaultPLA), true, false, defaultBSA⟩).balance_sheet_data
      = none ∧
    (tab1Step initState
        ⟨some (plTableOf defaultPLA), true, false, defaultBSA⟩).is_bs_generated
      = false :=
  ⟨((orchestrator_freshness initState
      ⟨some (plTableOf defaultPLA), true, false, defaultBSA⟩
      Reachable.init).2.2 (plTableOf defaultPLA) rfl).1,
   ((orchestrator_freshness initState
      ⟨some (plTableOf defaultPLA), true, false, defaultBSA⟩
      Reachable.init).2.2 (plTableOf defaultPLA) rfl).2.1⟩

/-- C10: when an exception occurs inside balance sheet generation the
forecaster returns none rather than any partial table, and a rerun whose
balance sheet generation fails while no fresh P&L was produced leaves the
whole session state exactly as it was, so previously stored statements are
never corrupted or partially overwritten. -/
theorem generation_failure_preserves_state (s : SessionState) (ev : RunEvents)
    (hnopl : ev.pl_result = none) (hfail : ev.bs_fails = true) :
    (∀ (p : PLTable) (b : BSAssumptions) (c : Bool),
        create_balance_sheet_section p b c ev.bs_fails = none) ∧
    (runScript s ev).1 = s := by
  have hcr : ∀ (p : PLTable) (b : BSAssumptions) (c : Bool),
      create_balance_sheet_section p b c ev.bs_fails = none := by
    intro p b c
    cases c <;> simp [create_balance_sheet_section, hfail]
  refine ⟨hcr, ?_⟩
  have hs1 : tab1Step s ev = s := by simp [tab1Step, hnopl]
  cases hp : s.is_pl_generated with
  | false => simp [runScript, hs1, hp]
  | true =>
      rcases hpd : s.profit_loss_data with _ | p
      · simp [runScript, hs1, hp, hpd]
      · simp [runScript, hs1, hp, hpd, hcr p ev.bs_asm ev.bs_clicked]

/-- Witness for C10: a failing balance sheet generation from the initial
state leaves the session state unchanged. -/
theorem generation_failure_preserves_state_witness :
    (runScript initState ⟨none, true, true, defaultBSA⟩).1 = initState :=
  (generation_failure_preserves_state initState
    ⟨none, true, true, defaultBSA⟩ rfl rfl).2
